import Mathlib

/-!
Verification of the redis connection-pool facade (src/redis.go).

The Go source is shallowly embedded: `interface\x7b\x7d` values crossing the
redigo boundary become the inductive `GoVal`; the logger sink is modelled as
a list of emitted `LogRecord`s; the wrapper `DefaultRedisConn` becomes a pure
state (its one-shot `printLog` flag plus the identity of the embedded
connection), and each wrapper method becomes a function taking the underlying
connection's outcome as an explicit input and returning the new wrapper state
together with the log records emitted.  The process-wide pool handle and the
admission gate of `GetConn` are embedded over an explicit `PoolState`.
-/

/-- A Go `interface` value as it appears at the redigo reply/args boundary:
`nil`, a `[]byte`, a `string`, an integer, or a `[]interface` slice. -/
inductive GoVal where
  | VNil : GoVal
  | VBytes : String → GoVal
  | VStr : String → GoVal
  | VInt : Int → GoVal
  | VList : List GoVal → GoVal

mutual

def GoVal.deq : (a b : GoVal) → Decidable (a = b)
  | .VNil, .VNil => .isTrue rfl
  | .VNil, .VBytes _ => .isFalse (fun h => nomatch h)
  | .VNil, .VStr _ => .isFalse (fun h => nomatch h)
  | .VNil, .VInt _ => .isFalse (fun h => nomatch h)
  | .VNil, .VList _ => .isFalse (fun h => nomatch h)
  | .VBytes _, .VNil => .isFalse (fun h => nomatch h)
  | .VBytes s, .VBytes t =>
      match decEq s t with
      | .isTrue h => .isTrue (by rw [h])
      | .isFalse h => .isFalse (fun hh => h (by injection hh))
  | .VBytes _, .VStr _ => .isFalse (fun h => nomatch h)
  | .VBytes _, .VInt _ => .isFalse (fun h => nomatch h)
  | .VBytes _, .VList _ => .isFalse (fun h => nomatch h)
  | .VStr _, .VNil => .isFalse (fun h => nomatch h)
  | .VStr _, .VBytes _ => .isFalse (fun h => nomatch h)
  | .VStr s, .VStr t =>
      match decEq s t with
      | .isTrue h => .isTrue (by rw [h])
      | .isFalse h => .isFalse (fun hh => h (by injection hh))
  | .VStr _, .VInt _ => .isFalse (fun h => nomatch h)
  | .VStr _, .VList _ => .isFalse (fun h => nomatch h)
  | .VInt _, .VNil => .isFalse (fun h => nomatch h)
  | .VInt _, .VBytes _ => .isFalse (fun h => nomatch h)
  | .VInt _, .VStr _ => .isFalse (fun h => nomatch h)
  | .VInt m, .VInt n =>
      match decEq m n with
      | .isTrue h => .isTrue (by rw [h])
      | .isFalse h => .isFalse (fun hh => h (by injection hh))
  | .VInt _, .VList _ => .isFalse (fun h => nomatch h)
  | .VList _, .VNil => .isFalse (fun h => nomatch h)
  | .VList _, .VBytes _ => .isFalse (fun h => nomatch h)
  | .VList _, .VStr _ => .isFalse (fun h => nomatch h)
  | .VList _, .VInt _ => .isFalse (fun h => nomatch h)
  | .VList l, .VList m =>
      match GoVal.deqList l m with
      | .isTrue h => .isTrue (by rw [h])
      | .isFalse h => .isFalse (fun hh => h (by injection hh))

def GoVal.deqList : (a b : List GoVal) → Decidable (a = b)
  | [], [] => .isTrue rfl
  | [], _ :: _ => .isFalse (fun h => nomatch h)
  | _ :: _, [] => .isFalse (fun h => nomatch h)
  | x :: xs, y :: ys =>
      match GoVal.deq x y, GoVal.deqList xs ys with
      | .isTrue h1, .isTrue h2 => .isTrue (by rw [h1, h2])
      | .isFalse h1, _ => .isFalse (fun hh => h1 (by injection hh))
      | _, .isFalse h2 => .isFalse (fun hh => h2 (by injection hh))

end

instance : DecidableEq GoVal := GoVal.deq

/-- Go `fmt.Sprintf "%v"` on a `[]byte`: the space-separated decimal bytes in
brackets. -/
def bytesFmtV (s : String) : String :=
  "[" ++ String.intercalate " " (s.toUTF8.toList.map (fun b => toString b.toNat)) ++ "]"

mutual

/-- Go `fmt.Sprintf "%v"` on the values of `GoVal`. -/
def goFmtV : GoVal → String
  | .VNil => "<nil>"
  | .VBytes s => bytesFmtV s
  | .VStr s => s
  | .VInt n => toString n
  | .VList l => "[" ++ goFmtVList l ++ "]"

/-- `%v` of a slice body: elements separated by single spaces. -/
def goFmtVList : List GoVal → String
  | [] => ""
  | [x] => goFmtV x
  | x :: y :: xs => goFmtV x ++ " " ++ goFmtVList (y :: xs)

end

/-- Go `fmt.Sprintf "%s"` restricted to the `[]byte` case used at
src/redis.go line 140 (there it is `string(v)`). -/
def goFmtS : GoVal → String
  | .VBytes s => s
  | v => goFmtV v

/-- A structured zap/logger field: `logger.String`, `logger.Any` applied to a
`[]string`, `logger.Any` applied to a raw slice, or `logger.Err`. -/
inductive ZapField where
  | FString : String → String → ZapField
  | FStrings : String → List String → ZapField
  | FVals : String → List GoVal → ZapField
  | FErr : String → ZapField
deriving DecidableEq

/-- `anyField` (src/redis.go lines 128-148): type-switch rendering of a reply
value into a structured log field. -/
def anyField (key : String) (a : GoVal) : ZapField :=
  match a with
  | .VBytes s => .FString key s
  | .VStr s => .FString key s
  | .VList l =>
      .FStrings key (l.filterMap (fun v =>
        match v with
        | .VBytes s => some (goFmtS (.VBytes s))
        | _ => none))
  | _ => .FString key (goFmtV a)

/-- Whether a slice element is a `[]byte` (the `v.([]byte)` type assertion at
src/redis.go line 139). -/
def isByteSeq : GoVal → Bool
  | .VBytes _ => true
  | _ => false

/-- Severity of an emitted log record. -/
inductive LogLevel where
  | info : LogLevel
  | error : LogLevel
deriving DecidableEq

/-- One record handed to the logging sink. -/
structure LogRecord where
  level : LogLevel
  msg : String
  fields : List ZapField
deriving DecidableEq

/-- `printError` (src/redis.go lines 150-161): one error-severity record,
with command context only when `commandName` is non-empty. -/
def printError (err : String) (msg : String) (commandName : String)
    (args : List GoVal) : List LogRecord :=
  if commandName = "" then
    [⟨.error, msg, [.FErr err]⟩]
  else
    [⟨.error, msg, [.FErr err, .FString "commandName" commandName, .FVals "args" args]⟩]

/-- `printInfo` (src/redis.go lines 163-181).  With an empty `commandName` it
logs the rendered result once.  Otherwise it builds the `command` string and,
exactly as the source does, emits a "redis send" record when `result` is nil
and then — with no intervening return — always emits a "redis do" record. -/
def printInfo (result : GoVal) (msg : String) (commandName : String)
    (args : List GoVal) : List LogRecord :=
  if commandName = "" then
    [⟨.info, msg, [anyField "result" result]⟩]
  else
    let commandArgs := args.foldl (fun acc arg => acc ++ " " ++ goFmtV arg) commandName
    (if result = .VNil then
      [⟨.info, "redis send", [.FString "command" commandArgs]⟩]
     else []) ++
    [⟨.info, "redis do", [.FString "command" commandArgs, anyField "result" result]⟩]

/-- The wrapper around one acquired connection (src/redis.go lines 48-51):
the identity of the embedded `redis.Conn` and the one-shot `printLog` flag
(zero-valued `false` at construction). -/
structure DefaultRedisConn where
  Conn : Nat
  printLog : Bool
deriving DecidableEq

/-- `WithLog` (src/redis.go lines 53-56): sets `printLog` and returns the
same wrapper. -/
def DefaultRedisConn.WithLog (d : DefaultRedisConn) : DefaultRedisConn :=
  { d with printLog := true }

/-- Outcome of an underlying `Conn.Do` / `Conn.Receive`: the reply and error
the embedded connection hands back. -/
inductive DoOutcome where
  | ok : GoVal → DoOutcome
  | fail : GoVal → String → DoOutcome
deriving DecidableEq

/-- `DefaultRedisConn.Do` (src/redis.go lines 58-74), with the underlying
connection's outcome as an explicit input.  Returns (reply, error, wrapper
after the call, records logged). -/
def DefaultRedisConn.Do (d : DefaultRedisConn) (commandName : String)
    (args : List GoVal) (outcome : DoOutcome) :
    GoVal × Option String × DefaultRedisConn × List LogRecord :=
  match outcome with
  | .fail result e =>
      if d.printLog then
        (result, some e, { d with printLog := false },
         printError e "redis do error" commandName args)
      else (result, some e, d, [])
  | .ok result =>
      if d.printLog then
        (result, none, { d with printLog := false },
         printInfo result "redis do" commandName args)
      else (result, none, d, [])

/-- `DefaultRedisConn.Send` (src/redis.go lines 77-93): buffered send, with
the underlying `Conn.Send` outcome as input. -/
def DefaultRedisConn.Send (d : DefaultRedisConn) (commandName : String)
    (args : List GoVal) (outcome : Option String) :
    Option String × DefaultRedisConn × List LogRecord :=
  match outcome with
  | some e =>
      if d.printLog then
        (some e, { d with printLog := false },
         printError e "redis send error" commandName args)
      else (some e, d, [])
  | none =>
      if d.printLog then
        (none, { d with printLog := false },
         printInfo .VNil "redis send" commandName args)
      else (none, d, [])

/-- `DefaultRedisConn.Flush` (src/redis.go lines 96-107). -/
def DefaultRedisConn.Flush (d : DefaultRedisConn) (outcome : Option String) :
    Option String × DefaultRedisConn × List LogRecord :=
  match outcome with
  | some e =>
      if d.printLog then
        (some e, { d with printLog := false }, printError e "redis Flush error" "" [])
      else (some e, d, [])
  | none => (none, d, [])

/-- `DefaultRedisConn.Receive` (src/redis.go lines 110-125). -/
def DefaultRedisConn.Receive (d : DefaultRedisConn) (outcome : DoOutcome) :
    GoVal × Option String × DefaultRedisConn × List LogRecord :=
  match outcome with
  | .fail result e =>
      if d.printLog then
        (result, some e, { d with printLog := false },
         printError e "redis receive error" "" [])
      else (result, some e, d, [])
  | .ok result =>
      if d.printLog then
        (result, none, { d with printLog := false }, printInfo result "redis receive" "" [])
      else (result, none, d, [])

/-- One operation issued on an acquired connection, together with the outcome
the underlying connection would produce for it. -/
inductive Op where
  | doOp : String → List GoVal → DoOutcome → Op
  | sendOp : String → List GoVal → Option String → Op
  | flushOp : Option String → Op
  | recvOp : DoOutcome → Op

/-- Run one operation through the wrapper, keeping the new wrapper state and
the records it logged. -/
def stepOp (d : DefaultRedisConn) : Op → DefaultRedisConn × List LogRecord
  | .doOp cmd args outcome =>
      let r := d.Do cmd args outcome
      (r.2.2.1, r.2.2.2)
  | .sendOp cmd args outcome =>
      let r := d.Send cmd args outcome
      (r.2.1, r.2.2)
  | .flushOp outcome =>
      let r := d.Flush outcome
      (r.2.1, r.2.2)
  | .recvOp outcome =>
      let r := d.Receive outcome
      (r.2.2.1, r.2.2.2)

/-- Run a sequence of operations on one acquisition, collecting every record
logged along the way. -/
def runOps (d : DefaultRedisConn) : List Op → DefaultRedisConn × List LogRecord
  | [] => (d, [])
  | op :: ops =>
      let r := stepOp d op
      let rest := runOps r.1 ops
      (rest.1, r.2 ++ rest.2)

/-- `maxActiveCount` (src/redis.go line 16): the admission ceiling. -/
def maxActiveCount : Nat := 2800

/-- Observable state of the process-wide pool.  `activeCount` is redigo's
active-connection counter; `getCalls` counts invocations of the inner
`redis.Pool.Get`, so "the gate did not delegate to acquire" is visible.
The counters themselves live in the external pool library; they are
modelled from the spec (§3 ActiveCounter: incremented on successful
acquisition, decremented on release). -/
structure PoolState where
  activeCount : Nat
  getCalls : Nat
deriving DecidableEq

/-- `RedisPool.Get` (src/redis.go lines 38-41): delegates to the inner
`redis.Pool.Get` (which hands out the underlying connection `next` and
increments the active counter — modelled from the spec, §4.2) and wraps it
in a freshly constructed `DefaultRedisConn` whose `printLog` field has Go's
zero value `false`. -/
def RedisPool.Get (p : PoolState) (next : Nat) : DefaultRedisConn × PoolState :=
  ({ Conn := next, printLog := false },
   { p with activeCount := p.activeCount + 1, getCalls := p.getCalls + 1 })

/-- What a call to `GetConn` does: either the fatal `logger.Panic` (which
never returns), or a normal return of a connection and an error value. -/
inductive GetConnOut where
  | fatalPanic : String → GetConnOut
  | ret : Option DefaultRedisConn → Option String → GetConnOut
deriving DecidableEq

/-- The capacity-exceeded error text built at src/redis.go line 28. -/
def capacityErrMsg (limit : Nat) : String :=
  "redis connect clients exceeded the limit of " ++ toString limit

/-- `GetConn` (src/redis.go lines 21-32) over the optional process-wide pool
handle: panic when the handle is nil; reject with the capacity error when the
active count strictly exceeds `maxActiveCount`, leaving the pool untouched;
otherwise delegate to `RedisPool.Get`. -/
def GetConn (pool : Option PoolState) (next : Nat) : GetConnOut × Option PoolState :=
  match pool with
  | none =>
      (.fatalPanic "redis pool is nil, go to connect redis first, eg: redis.NewRedisPool(server, password string)",
       none)
  | some p =>
      if p.activeCount > maxActiveCount then
        (.ret none (some (capacityErrMsg maxActiveCount)), some p)
      else
        let r := RedisPool.Get p next
        (.ret (some r.1) none, some r.2)

/-- Modelled from the spec: the pooled connection's close (`Pool.release`
semantics, spec §4.2/§4.4) lives in the external pool library, not under
src/; it decrements the active counter and reports success to its caller
whatever the underlying transport close returned. -/
def pooledConnClose (p : PoolState) (underlyingCloseErr : Option String) :
    Option String × PoolState :=
  (none, { p with activeCount := p.activeCount - 1 })

/-- `DefaultRedisConn` declares no `Close` of its own (src/redis.go lines
48-51), so Go method promotion makes the wrapper's `Close` exactly the
embedded pooled connection's `Close`. -/
def DefaultRedisConn.Close (d : DefaultRedisConn) (p : PoolState)
    (underlyingCloseErr : Option String) : Option String × PoolState :=
  pooledConnClose p underlyingCloseErr

/-- The behaviour of the backend/network as seen by one dial attempt:
whether the TCP dial, the AUTH command, the select command and the PING
probe would succeed. -/
structure NetEnv where
  dialOk : Bool
  authOk : Bool
  selectOk : Bool
  pingOk : Bool
deriving DecidableEq

/-- An observable event on the wire: a TCP dial, a command issued on an
established connection, or a transport close of a connection. -/
inductive NetEvent where
  | dialTCP : String → NetEvent
  | cmd : Nat → String → List GoVal → NetEvent
  | closedConn : Nat → NetEvent
deriving DecidableEq

/-- The `Dial` closure installed by `NewRedisPool` (src/redis.go lines
189-202): dial the server; unconditionally issue `AUTH password`; on AUTH
failure close the half-open connection and return the error; then issue
`select 0` with both of its results discarded; return the connection.
Returns (connection, error, wire events); the fresh connection is given
identity 0. -/
def dialClosure (env : NetEnv) (server password : String) :
    Option Nat × Option String × List NetEvent :=
  if env.dialOk = false then
    (none, some "dial error", [.dialTCP server])
  else
    if env.authOk = false then
      (none, some "auth error",
       [.dialTCP server, .cmd 0 "AUTH" [.VStr password], .closedConn 0])
    else
      (some 0, none,
       [.dialTCP server, .cmd 0 "AUTH" [.VStr password], .cmd 0 "select" [.VInt 0]])

/-- The fixed pool configuration set at src/redis.go lines 187-188. -/
structure RedisPoolCfg where
  MaxIdle : Nat
  IdleTimeoutSec : Nat
deriving DecidableEq

/-- The observable effect of one `NewRedisPool` call. -/
structure InitResult where
  err : Option String
  poolCfg : RedisPoolCfg
  events : List NetEvent
  released : Bool
deriving DecidableEq

/-- `NewRedisPool` (src/redis.go lines 184-216): install the pool with
`MaxIdle = 3` and `IdleTimeout = 240s` and the `Dial` closure above, acquire
one connection through `GetConn` (the fresh pool has no idle connection, so
the inner `Get` invokes `Dial`; when `Dial` fails, the inner pool hands back
a connection that replays the dial error on first use — that deferred-error
behaviour of the external pool library is modelled from the spec, §4.2
"dial error propagated unchanged"), issue `PING` on it, close it via the
deferred `Close`, and return the `PING` error. -/
def NewRedisPool (env : NetEnv) (server password : String) : InitResult :=
  let cfg : RedisPoolCfg := { MaxIdle := 3, IdleTimeoutSec := 240 }
  let dialed := dialClosure env server password
  match dialed.1 with
  | none =>
      { err := dialed.2.1, poolCfg := cfg, events := dialed.2.2, released := true }
  | some c =>
      if env.pingOk then
        { err := none, poolCfg := cfg,
          events := dialed.2.2 ++ [.cmd c "PING" []], released := true }
      else
        { err := some "ping error", poolCfg := cfg,
          events := dialed.2.2 ++ [.cmd c "PING" []], released := true }
/-- C1: after initialization, when the pool's active count strictly exceeds
the admission ceiling, `GetConn` returns the capacity error carrying the
ceiling together with a nil connection, and the pool state — active counter
and inner-acquire call count — is untouched (no delegation to the pool). -/
theorem C1_gate_rejects_over_ceiling (p : PoolState) (next : Nat)
    (h : p.activeCount > maxActiveCount) :
    GetConn (some p) next =
      (.ret none (some (capacityErrMsg maxActiveCount)), some p) := by
  simp [GetConn, h]

/-- Witness for C1 at active count 2801 with ceiling 2800. -/
theorem C1_gate_rejects_over_ceiling_witness :
    GetConn (some ⟨2801, 0⟩) 5 =
      (.ret none (some (capacityErrMsg maxActiveCount)), some ⟨2801, 0⟩) :=
  C1_gate_rejects_over_ceiling ⟨2801, 0⟩ 5 (by decide)

/-- C2: evaluating the wrapper at the failing input.  On an armed
acquisition whose first operation is a successful buffered send, two log
records are emitted (the "redis send" record and, because `printInfo` has no
return after its nil-result branch, an additional "redis do" record) — not
the single record the one-shot trace is specified to produce; later
operations on the acquisition stay silent, so the total remains two. -/
theorem C2_armed_send_emits_two_records :
    (runOps { Conn := 0, printLog := true }
      [.sendOp "SET" [.VStr "k", .VStr "v"] none]).2.length = 2 ∧
    (runOps { Conn := 0, printLog := true }
      [.sendOp "SET" [.VStr "k", .VStr "v"] none,
       .doOp "GET" [.VStr "k"] (.ok (.VBytes "v"))]).2.length = 2 := by
  exact ⟨rfl, rfl⟩

/-- C3: `NewRedisPool` installs the pool with idle cap 3 and idle timeout
240 seconds, acquires one connection, probes it with PING and releases it
before returning; it returns no error exactly when dial, AUTH and PING all
succeed, and when AUTH fails during dial it returns that auth error with the
half-open connection closed. -/
theorem C3_initialize_config_probe_result (env : NetEnv) (server password : String) :
    (NewRedisPool env server password).poolCfg = { MaxIdle := 3, IdleTimeoutSec := 240 } ∧
    (NewRedisPool env server password).released = true ∧
    ((NewRedisPool env server password).err = none ↔
       env.dialOk = true ∧ env.authOk = true ∧ env.pingOk = true) ∧
    (env.dialOk = true → env.authOk = true →
       NetEvent.cmd 0 "PING" [] ∈ (NewRedisPool env server password).events) ∧
    (env.dialOk = true → env.authOk = false →
       (NewRedisPool env server password).err = some "auth error" ∧
       NetEvent.closedConn 0 ∈ (NewRedisPool env server password).events) := by
  obtain ⟨d, a, s, pg⟩ := env
  cases d <;> cases a <;> cases pg <;>
    simp [NewRedisPool, dialClosure]

/-- Witness for C3: with AUTH failing, initialization surfaces the auth
error and the half-open connection has been closed on the wire. -/
theorem C3_initialize_config_probe_result_witness :
    (NewRedisPool ⟨true, false, true, true⟩ "backend:6379" "secret").err = some "auth error" ∧
    NetEvent.closedConn 0 ∈ (NewRedisPool ⟨true, false, true, true⟩ "backend:6379" "secret").events :=
  (C3_initialize_config_probe_result ⟨true, false, true, true⟩ "backend:6379" "secret").2.2.2.2 rfl rfl

/-- C4: before `NewRedisPool` has run (pool handle nil), `GetConn` hits the
fatal panic branch, and in that state it never returns the capacity error. -/
theorem C4_getconn_before_init_panics (next : Nat) :
    (GetConn none next).1 =
      .fatalPanic "redis pool is nil, go to connect redis first, eg: redis.NewRedisPool(server, password string)" ∧
    (GetConn none next).1 ≠ .ret none (some (capacityErrMsg maxActiveCount)) := by
  refine ⟨rfl, ?_⟩
  intro h
  exact GetConnOut.noConfusion h

/-- Witness for C4 at a concrete call. -/
theorem C4_getconn_before_init_panics_witness :
    (GetConn none 0).1 =
      .fatalPanic "redis pool is nil, go to connect redis first, eg: redis.NewRedisPool(server, password string)" ∧
    (GetConn none 0).1 ≠ .ret none (some (capacityErrMsg maxActiveCount)) :=
  C4_getconn_before_init_panics 0
/-- Helper: rendering a slice consisting solely of byte sequences keeps every
element, in order, as its text form. -/
theorem anyField_map_bytes (key : String) (l : List String) :
    anyField key (.VList (l.map .VBytes)) = .FStrings key l := by
  simp only [anyField, goFmtS]
  congr 1
  induction l with
  | nil => rfl
  | cons x xs ih => simpa [List.filterMap_cons] using ih

/-- C5: `anyField` renders a byte-sequence reply as its text form, a slice
of byte sequences as the ordered list of their text forms, and any other
reply (here an integer) through the generic textual fallback; in particular
bytes "OK" renders "OK", a slice of bytes "a" and "b" renders the list with
"a" and "b", and the integer 42 renders "42". -/
theorem C5_reply_rendering :
    (∀ key s, anyField key (.VBytes s) = .FString key s) ∧
    (∀ key l, anyField key (.VList (l.map .VBytes)) = .FStrings key l) ∧
    (∀ key n, anyField key (.VInt n) = .FString key (goFmtV (.VInt n))) ∧
    anyField "result" (.VBytes "OK") = .FString "result" "OK" ∧
    anyField "result" (.VList [.VBytes "a", .VBytes "b"]) = .FStrings "result" ["a", "b"] ∧
    anyField "result" (.VInt 42) = .FString "result" "42" := by
  refine ⟨fun key s => rfl, anyField_map_bytes, fun key n => rfl, rfl, ?_, rfl⟩
  decide

/-- C6 counterexample: the claim says the dial issues AUTH only when the
credential is non-empty, but with the empty credential the closure still
puts an AUTH command on the wire. -/
theorem C6_auth_issued_with_empty_credential :
    NetEvent.cmd 0 "AUTH" [.VStr ""] ∈
      (dialClosure ⟨true, true, true, true⟩ "backend:6379" "").2.2 := by
  decide

/-- C6 amended: the dial closure issues the AUTH command unconditionally
(whatever the credential, empty included); on AUTH failure it closes the
half-open connection and surfaces the auth error; on AUTH success it issues
the namespace select best-effort and never propagates its failure. -/
theorem C6_dial_auth_and_select (env : NetEnv) (server password : String)
    (h : env.dialOk = true) :
    NetEvent.cmd 0 "AUTH" [.VStr password] ∈ (dialClosure env server password).2.2 ∧
    (env.authOk = false →
       (dialClosure env server password).1 = none ∧
       (dialClosure env server password).2.1 = some "auth error" ∧
       NetEvent.closedConn 0 ∈ (dialClosure env server password).2.2) ∧
    (env.authOk = true →
       (dialClosure env server password).2.1 = none ∧
       NetEvent.cmd 0 "select" [.VInt 0] ∈ (dialClosure env server password).2.2) := by
  obtain ⟨d, a, s, pg⟩ := env
  cases d
  · exact absurd h (by simp)
  · cases a <;> simp [dialClosure]

/-- Witness for C6 amended: empty credential, AUTH failing. -/
theorem C6_dial_auth_and_select_witness :
    NetEvent.cmd 0 "AUTH" [.VStr ""] ∈ (dialClosure ⟨true, false, true, true⟩ "backend:6379" "").2.2 ∧
    (dialClosure ⟨true, false, true, true⟩ "backend:6379" "").1 = none ∧
    (dialClosure ⟨true, false, true, true⟩ "backend:6379" "").2.1 = some "auth error" ∧
    NetEvent.closedConn 0 ∈ (dialClosure ⟨true, false, true, true⟩ "backend:6379" "").2.2 :=
  ⟨(C6_dial_auth_and_select ⟨true, false, true, true⟩ "backend:6379" "" rfl).1,
   (C6_dial_auth_and_select ⟨true, false, true, true⟩ "backend:6379" "" rfl).2.1 rfl⟩

/-- C7: the wrapper's close always reports success to its caller — whatever
error the underlying transport close produced is not propagated. -/
theorem C7_close_swallows_underlying_error (d : DefaultRedisConn) (p : PoolState)
    (e : Option String) :
    (d.Close p e).1 = none := rfl

/-- C8: every wrapper handed out by `RedisPool.Get` starts with tracing
disabled — in particular re-acquiring the very underlying connection of a
previously armed wrapper still yields a disarmed wrapper. -/
theorem C8_acquisitions_start_disarmed (p : PoolState) (w : DefaultRedisConn) (next : Nat) :
    (RedisPool.Get p next).1.printLog = false ∧
    (RedisPool.Get p w.WithLog.Conn).1.printLog = false :=
  ⟨rfl, rfl⟩

/-- C9: when the reply slice is heterogeneous, every element that is not a
byte sequence is silently dropped from the rendered list — removing a
non-byte element anywhere in the slice leaves the rendering unchanged, and
the slice of bytes "a" and integer 1 renders as the singleton list "a". -/
theorem C9_list_rendering_drops_non_bytes (key : String)
    (pre post : List GoVal) (v : GoVal) (h : isByteSeq v = false) :
    anyField key (.VList (pre ++ v :: post)) = anyField key (.VList (pre ++ post)) ∧
    anyField "result" (.VList [.VBytes "a", .VInt 1]) = .FStrings "result" ["a"] := by
  constructor
  · simp only [anyField]
    congr 1
    rw [List.filterMap_append, List.filterMap_append, List.filterMap_cons]
    cases v with
    | VBytes s => simp [isByteSeq] at h
    | VNil => rfl
    | VStr s => rfl
    | VInt n => rfl
    | VList l => rfl
  · decide

/-- Witness for C9 with the slice holding bytes "a" and the integer 1. -/
theorem C9_list_rendering_drops_non_bytes_witness :
    anyField "result" (.VList ([GoVal.VBytes "a"] ++ GoVal.VInt 1 :: [])) =
      anyField "result" (.VList ([GoVal.VBytes "a"] ++ [])) ∧
    anyField "result" (.VList [.VBytes "a", .VInt 1]) = .FStrings "result" ["a"] :=
  C9_list_rendering_drops_non_bytes "result" [GoVal.VBytes "a"] [] (GoVal.VInt 1) (by decide)

/-- C10: the admission check uses strict inequality, so a `GetConn` call made
with the active count exactly at the ceiling still delegates to the pool's
acquire and returns a connection with nil error, raising the active count to
ceiling + 1. -/
theorem C10_at_ceiling_still_admits (p : PoolState) (next : Nat)
    (h : p.activeCount = maxActiveCount) :
    (GetConn (some p) next).1 = .ret (some { Conn := next, printLog := false }) none ∧
    (GetConn (some p) next).2 =
      some { activeCount := maxActiveCount + 1, getCalls := p.getCalls + 1 } := by
  simp [GetConn, RedisPool.Get, h]

/-- Witness for C10 at active count 2800, the exact ceiling. -/
theorem C10_at_ceiling_still_admits_witness :
    (GetConn (some ⟨2800, 7⟩) 4).1 = .ret (some { Conn := 4, printLog := false }) none ∧
    (GetConn (some ⟨2800, 7⟩) 4).2 = some { activeCount := maxActiveCount + 1, getCalls := 7 + 1 } :=
  C10_at_ceiling_still_admits ⟨2800, 7⟩ 4 (by decide)
